import Mathlib

/-!
Shallow embedding of `src/PySeismoSoil/class_batch_simulation.py`.

The file models the class `Batch_Simulation` (its constructor `__init__`, the
public method `run`, and the per-task method `_run_single_sim`), together with
the Python primitives the code relies on (`str` on a nonnegative integer,
`str.rjust`, `os.path.join`, `dict.update`, `dict.get`, `isinstance`) and the
external simulation objects the batch drives.  Simulation objects are opaque
tasks carrying a Python type and a `run` capability; the three recognized
simulation classes and their possible user-defined subclasses are modelled by
the inductive `PyType`.  Mutation of the shared options dict is modelled by
explicitly threading the dict through the sequential loop, while the parallel
pool hands every worker a pickled copy of the original dict.
-/

namespace BatchSim

/-! ### Models of the Python primitives used by the source -/

/-- Character of one decimal digit (`0 ≤ d ≤ 9`). -/
def digitChar (d : Nat) : Char := Char.ofNat (48 + d)

/-- Big-endian decimal digits of `n`, driven by explicit fuel so that the
recursion is structural (the fuel `n + 1` always suffices). -/
def natDigitsAux : Nat → Nat → List Nat
  | 0, _ => []
  | fuel + 1, n => if n < 10 then [n] else natDigitsAux fuel (n / 10) ++ [n % 10]

/-- Big-endian decimal digits of `n`. -/
def natDigits (n : Nat) : List Nat := natDigitsAux (n + 1) n

/-- Model of Python `str(n)` for a nonnegative integer `n`. -/
def pyStr (n : Nat) : String := String.mk ((natDigits n).map digitChar)

/-- Model of Python `s.rjust(w, '0')`: left-pad with zeros up to width `w`
(if `s` is at least that long already, `s` is returned unchanged, which the
single formula below covers because the padding count truncates at zero). -/
def rjustZero (w : Nat) (s : String) : String :=
  String.mk (List.replicate (w - s.data.length) '0' ++ s.data)

/-- Model of POSIX `os.path.join(a, b)` for two components. -/
def osPathJoin (a b : String) : String :=
  if b.data.head? = some '/' then b
  else if a.data = [] ∨ a.data.getLast? = some '/' then a ++ b
  else a ++ "/" ++ b

/-- One step of decimal parsing: shift the accumulator and add a digit. -/
def parseStep (x d : Nat) : Nat := 10 * x + d

/-- Decimal value denoted by a list of digit characters (used only in
specifications, to state that a zero-padded rendering still denotes the
original ordinal). -/
def parseDC (l : List Char) : Nat :=
  l.foldl (fun a c => 10 * a + (c.toNat - 48)) 0

/-- Values stored in the options dict. -/
inductive PyVal where
  | str (s : String)
  | bool (b : Bool)
  deriving DecidableEq

/-- Python truthiness of an options value. -/
def PyVal.truthy : PyVal → Bool
  | .str s => !s.isEmpty
  | .bool b => b

/-- A Python dict with string keys, modelled as an association list in
insertion order (keys are unique in any dict produced by the source). -/
abbrev PyDict := List (String × PyVal)

/-- Model of Python `d.update({k: v})` for a single key: replace the value in
place if the key is present, otherwise append the pair at the end. -/
def dictUpdate : PyDict → String → PyVal → PyDict
  | [], k, v => [(k, v)]
  | p :: rest, k, v => if p.1 = k then (k, v) :: rest else p :: dictUpdate rest k v

/-- Model of Python `d.get(k)` (reading a dict entry). -/
def dictGet : PyDict → String → Option PyVal
  | [], _ => none
  | p :: rest, k => if p.1 = k then some p.2 else dictGet rest k

/-! ### The simulation objects driven by the batch -/

/-- Python types relevant to the source: the three recognized simulation
classes, user-defined subclasses of arbitrary types, and unrelated types. -/
inductive PyType where
  | Linear_Simulation
  | Equiv_Linear_Simulation
  | Nonlinear_Simulation
  | subclassOf (parent : PyType) (tag : Nat)
  | otherType (tag : Nat)
  deriving DecidableEq

/-- Model of Python `issubclass` (hence of `isinstance(x, t)` applied to the
type of `x`): a type is a subclass of itself and of anything its parent is a
subclass of. -/
def PyType.isSubclassOf : PyType → PyType → Bool
  | .Linear_Simulation, t => PyType.Linear_Simulation == t
  | .Equiv_Linear_Simulation, t => PyType.Equiv_Linear_Simulation == t
  | .Nonlinear_Simulation, t => PyType.Nonlinear_Simulation == t
  | .otherType n, t => PyType.otherType n == t
  | .subclassOf p n, t => (PyType.subclassOf p n == t) || PyType.isSubclassOf p t

/-- The three task kinds of the specification. -/
inductive SimKind where
  | linear
  | equivLinear
  | nonlinear
  deriving DecidableEq

/-- The task kind a Python type belongs to, if any: the recognized simulation
class it is (or derives from). -/
def PyType.simKind : PyType → Option SimKind
  | .Linear_Simulation => some .linear
  | .Equiv_Linear_Simulation => some .equivLinear
  | .Nonlinear_Simulation => some .nonlinear
  | .subclassOf p _ => PyType.simKind p
  | .otherType _ => none

/-- Python exceptions distinguished by the source. -/
inductive PyError where
  | typeError (msg : String)
  | valueError (msg : String)
  | attributeError (msg : String)
  | indexError (msg : String)
  | otherError (tag : Nat)
  deriving DecidableEq

/-- The opaque result object a simulation's `run` returns. -/
structure Simulation_Results where
  tag : Nat
  deriving DecidableEq

/-- An external simulation object: a Python type plus a `run` capability that
consumes the options dict and either returns a result or raises. -/
structure SimObject where
  ty : PyType
  run : PyDict → Except PyError Simulation_Results

/-- The constructor argument `list_of_simulations`: either an actual list or
some non-list Python value. -/
inductive PyListArg where
  | list (xs : List SimObject)
  | notAList (tag : Nat)

/-! ### The `Batch_Simulation` class -/

/-- The state of a constructed `Batch_Simulation` object. -/
structure Batch_Simulation where
  list_of_simulations : List SimObject
  n_simulations : Nat
  sim_type : PyType
  use_ctx : Bool

/-- Constructor `Batch_Simulation.__init__` (source lines 51-94).  The
forkserver context set up when `use_ctx` is true has no effect on any data
modelled here. -/
def Batch_Simulation.init (list_arg : PyListArg) (use_ctx : Bool) :
    Except PyError Batch_Simulation :=
  match list_arg with
  | .notAList _ => .error (.typeError "`list_of_simulations` should be a list.")
  | .list [] => .error (.valueError "`list_of_simulations` should have at least one element.")
  | .list (sim_0 :: rest) =>
    if ¬ (sim_0.ty.isSubclassOf .Linear_Simulation ||
          sim_0.ty.isSubclassOf .Equiv_Linear_Simulation ||
          sim_0.ty.isSubclassOf .Nonlinear_Simulation) then
      .error (.typeError ("Elements of `list_of_simulations` should be of " ++
        "type `Linear_Simulation`, `Equiv_Linear_Simulation`, " ++
        "or `Nonlinear_Simulation`."))
    else if ¬ ((sim_0 :: rest).all fun i => i.ty.isSubclassOf sim_0.ty) then
      .error (.typeError "All the elements of `list_of_simulations` should be of the same type.")
    else
      .ok {
        list_of_simulations := sim_0 :: rest
        n_simulations := (sim_0 :: rest).length
        sim_type := sim_0.ty
        use_ctx := use_ctx
      }

/-- The options key that receives the per-task output location
(source lines 219-222). -/
def Batch_Simulation.locationKey (self : Batch_Simulation) : String :=
  if self.sim_type == PyType.Nonlinear_Simulation then "sim_dir" else "output_dir"

/-- Source line 218: `output_dir = os.path.join(base_output_dir,
str(i).rjust(n_digits, '0'))`. -/
def outputDirFor (n_digits : Nat) (base_output_dir : String) (i : Nat) : String :=
  osPathJoin base_output_dir (rjustZero n_digits (pyStr i))

/-- Source lines 218-222: the options dict after `_run_single_sim` has
injected the output location (the dict is updated in place). -/
def Batch_Simulation.injectedOptions (self : Batch_Simulation) (n_digits : Nat)
    (base_output_dir : String) (options : PyDict) (i : Nat) : PyDict :=
  let output_dir := osPathJoin base_output_dir (rjustZero n_digits (pyStr i))
  if self.sim_type == PyType.Nonlinear_Simulation then
    dictUpdate options "sim_dir" (PyVal.str output_dir)
  else
    dictUpdate options "output_dir" (PyVal.str output_dir)

/-- What one `_run_single_sim` call produces when it does not raise: the
result (Python `None` is `none`), the options dict it mutated, and the lines
it printed. -/
structure SingleSimOutcome where
  sim_result : Option Simulation_Results
  options_after : PyDict
  printed : List String
  deriving DecidableEq

/-- Method `Batch_Simulation._run_single_sim` (source lines 192-234).  The dict the
source calls `options` after its in-place `update` — and passes to the
simulation's `run` — is `injectedOptions`; it also comes back in the outcome
so that the callers' view of the mutated dict is modelled. -/
def Batch_Simulation.run_single_sim (self : Batch_Simulation) (i : Nat)
    (n_digits : Nat) (base_output_dir : String) (catch_errors : Bool)
    (options : PyDict) : Except PyError SingleSimOutcome :=
  match self.list_of_simulations.get? i with
  | none => .error (.indexError "list index out of range")
  | some sim_obj =>
    if catch_errors then
      match sim_obj.run (self.injectedOptions n_digits base_output_dir options i) with
      | .ok r => .ok ⟨some r, self.injectedOptions n_digits base_output_dir options i, []⟩
      | .error (.valueError _) =>
        .ok ⟨none, self.injectedOptions n_digits base_output_dir options i,
          ["Warning: ValueError encountered."]⟩
      | .error e => .error e
    else
      match sim_obj.run (self.injectedOptions n_digits base_output_dir options i) with
      | .ok r => .ok ⟨some r, self.injectedOptions n_digits base_output_dir options i, []⟩
      | .error e => .error e

/-- The sequential loop of `run` (source lines 148-152): invoke
`_run_single_sim` on each index in order, threading the shared (mutated)
options dict from one call to the next. -/
def Batch_Simulation.seqRun (self : Batch_Simulation) (n_digits : Nat)
    (base : String) (catch_errors : Bool) :
    List Nat → PyDict →
      Except PyError (List (Option Simulation_Results) × PyDict × List String)
  | [], options => .ok ([], options, [])
  | i :: rest, options =>
    match self.run_single_sim i n_digits base catch_errors options with
    | .error e => .error e
    | .ok out =>
      match Batch_Simulation.seqRun self n_digits base catch_errors rest out.options_after with
      | .error e => .error e
      | .ok (rs, opts', prints) => .ok (out.sim_result :: rs, opts', out.printed ++ prints)

/-- The parallel pool of `run` (source lines 153-177): every worker receives a
pickled copy of the same parameters, so each call starts from the original
options dict; `Pool.map` re-sorts results into submission order, which the
recursion reproduces, and a raising task makes the whole map raise (the model
deterministically surfaces the error of the lowest failing index). -/
def Batch_Simulation.parRun (self : Batch_Simulation) (n_digits : Nat)
    (base : String) (catch_errors : Bool) (options : PyDict) :
    List Nat → Except PyError (List (Option Simulation_Results) × List String)
  | [] => .ok ([], [])
  | i :: rest =>
    match self.run_single_sim i n_digits base catch_errors options with
    | .error e => .error e
    | .ok out =>
      match Batch_Simulation.parRun self n_digits base catch_errors options rest with
      | .error e => .error e
      | .ok (rs, prints) => .ok (out.sim_result :: rs, out.printed ++ prints)

/-- The deferred rendering loop of `run` (source lines 183-186):
`sim_result.plot(...)` is called on every gathered result in order; calling
`.plot` on the Python `None` sentinel raises `AttributeError`.  Returns the
results successfully plotted. -/
def plotSweep : List (Option Simulation_Results) → Except PyError (List Simulation_Results)
  | [] => .ok []
  | none :: _ => .error (.attributeError "NoneType object has no attribute plot")
  | some r :: rest => (plotSweep rest).map fun l => r :: l

/-- Source lines 142-144: the default base output directory derived from the
wall-clock timestamp read once at the start of `run`. -/
def defaultBaseDir (current_time : String) : String :=
  osPathJoin "./" ("batch_sim_" ++ current_time)

/-- Source lines 142-145: the base directory actually used by `run`. -/
def resolveBaseDir (base_output_dir : Option String) (current_time : String) : String :=
  match base_output_dir with
  | none => defaultBaseDir current_time
  | some b => b

/-- Source line 137: `options = {} if options is None else options`. -/
def resolveOptions (options : Option PyDict) : PyDict :=
  match options with
  | none => []
  | some d => d

/-- Source line 183: `options.get('show_fig', False)` used as a truth value. -/
def showFigRequested (options : PyDict) : Bool :=
  match dictGet options "show_fig" with
  | some v => v.truthy
  | none => false

/-- What a completed `run` call produces: the gathered results, the state of
the caller's options dict after the call, and the printed lines. -/
structure RunOutcome where
  sim_results : List (Option Simulation_Results)
  options_after : PyDict
  printed : List String
  deriving DecidableEq

/-- Method `Batch_Simulation.run` (source lines 96-190).  The wall-clock reading that
line 143 takes at the moment of invocation is passed in as `current_time`;
`n_cores` only sizes the worker pool and never affects the data modelled
here. -/
def Batch_Simulation.run (self : Batch_Simulation) (parallel : Bool)
    (n_cores : Option Nat) (base_output_dir : Option String)
    (catch_errors : Bool) (verbose : Bool) (options : Option PyDict)
    (current_time : String) : Except PyError RunOutcome :=
  let options := resolveOptions options
  let N := self.n_simulations
  let n_digits := (pyStr N).length
  let base := resolveBaseDir base_output_dir current_time
  if ¬ parallel then
    match self.seqRun n_digits base catch_errors (List.range self.n_simulations) options with
    | .error e => .error e
    | .ok (rs, opts', prints) => .ok ⟨rs, opts', prints⟩
  else
    let progressMsg :=
      if self.use_ctx then "Parallel computing in progress using forkserver..."
      else "Parallel computing in progress..."
    match self.parRun n_digits base catch_errors options (List.range N) with
    | .error e => .error e
    | .ok (rs, prints) =>
      let printed :=
        (if verbose then [progressMsg] else []) ++ prints ++
          (if verbose then ["done."] else [])
      if showFigRequested options then
        match plotSweep rs with
        | .error e => .error e
        | .ok _ => .ok ⟨rs, options, printed⟩
      else
        .ok ⟨rs, options, printed⟩

/-! ### Concrete simulation objects used by witnesses and counterexamples -/

/-- A linear simulation whose run always succeeds. -/
def linSim : SimObject := ⟨PyType.Linear_Simulation, fun _ => .ok ⟨7⟩⟩

/-- A simulation whose type is a (user-defined) proper subclass of
`Linear_Simulation`. -/
def subLinSim : SimObject := ⟨PyType.subclassOf PyType.Linear_Simulation 0, fun _ => .ok ⟨8⟩⟩

/-- A nonlinear simulation. -/
def nlSim : SimObject := ⟨PyType.Nonlinear_Simulation, fun _ => .ok ⟨9⟩⟩

/-- A simulation whose type is a proper subclass of `Nonlinear_Simulation`. -/
def nlSubSim : SimObject := ⟨PyType.subclassOf PyType.Nonlinear_Simulation 0, fun _ => .ok ⟨10⟩⟩

/-- A linear simulation whose run always raises `ValueError`. -/
def vErrLinSim : SimObject := ⟨PyType.Linear_Simulation, fun _ => .error (.valueError "bad input")⟩

/-- A batch of ten successful linear simulations. -/
def batch10 : Batch_Simulation :=
  ⟨List.replicate 10 linSim, 10, PyType.Linear_Simulation, false⟩

/-- A batch of three successful linear simulations. -/
def batch3 : Batch_Simulation :=
  ⟨List.replicate 3 linSim, 3, PyType.Linear_Simulation, false⟩

/-- A batch of one simulation whose type is a proper subclass of
`Nonlinear_Simulation`. -/
def nlSubBatch : Batch_Simulation :=
  ⟨[nlSubSim], 1, PyType.subclassOf PyType.Nonlinear_Simulation 0, false⟩

/-- A batch of one linear simulation that raises `ValueError`. -/
def vErrBatch : Batch_Simulation :=
  ⟨[vErrLinSim], 1, PyType.Linear_Simulation, false⟩

/-- A batch mixing one successful and one `ValueError`-raising linear
simulation. -/
def mixBatch : Batch_Simulation :=
  ⟨[linSim, vErrLinSim], 2, PyType.Linear_Simulation, false⟩

/-! ### Properties of the decimal-rendering model -/

theorem natDigitsAux_congr : ∀ f₁ f₂ n : Nat, n < f₁ → n < f₂ →
    natDigitsAux f₁ n = natDigitsAux f₂ n := by
  intro f₁
  induction f₁ with
  | zero => intro f₂ n h₁ _; omega
  | succ f ih =>
    intro f₂ n h₁ h₂
    match f₂, h₂ with
    | g + 1, h₂ =>
      simp only [natDigitsAux]
      by_cases h10 : n < 10
      · simp [h10]
      · simp only [if_neg h10]
        have hdiv : n / 10 < n := Nat.div_lt_self (by omega) (by omega)
        rw [ih g (n / 10) (by omega) (by omega)]

theorem natDigits_eq (n : Nat) :
    natDigits n = if n < 10 then [n] else natDigits (n / 10) ++ [n % 10] := by
  by_cases h : n < 10
  · simp [natDigits, natDigitsAux, h]
  · have hdiv : n / 10 < n := Nat.div_lt_self (by omega) (by omega)
    simp only [natDigits, natDigitsAux, if_neg h]
    rw [natDigitsAux_congr n (n / 10 + 1) (n / 10) (by omega) (by omega)]
    simp only [natDigitsAux]

theorem natDigits_ne_nil (n : Nat) : natDigits n ≠ [] := by
  rw [natDigits_eq]
  by_cases h : n < 10 <;> simp [h]

theorem natDigits_lt_ten : ∀ n : Nat, ∀ d ∈ natDigits n, d < 10 := by
  intro n
  induction n using Nat.strong_induction_on with
  | _ n ih =>
    rw [natDigits_eq]
    by_cases h : n < 10
    · simp only [if_pos h, List.mem_singleton]
      intro d hd
      omega
    · simp only [if_neg h, List.mem_append, List.mem_singleton]
      intro d hd
      rcases hd with hd | hd
      · exact ih (n / 10) (Nat.div_lt_self (by omega) (by omega)) d hd
      · subst hd
        exact Nat.mod_lt _ (by omega)

theorem natDigits_len_mono : ∀ j i : Nat, i ≤ j →
    (natDigits i).length ≤ (natDigits j).length := by
  intro j
  induction j using Nat.strong_induction_on with
  | _ j ih =>
    intro i hij
    rw [natDigits_eq i, natDigits_eq j]
    by_cases hj : j < 10
    · have hi : i < 10 := by omega
      simp [hi, hj]
    · by_cases hi : i < 10
      · simp only [if_pos hi, if_neg hj, List.length_append, List.length_singleton]
        omega
      · simp only [if_neg hi, if_neg hj, List.length_append, List.length_singleton]
        have h1 : i / 10 ≤ j / 10 := Nat.div_le_div_right hij
        have h2 : j / 10 < j := Nat.div_lt_self (by omega) (by omega)
        have := ih (j / 10) h2 (i / 10) h1
        omega

theorem parse_foldl_natDigits : ∀ n a : Nat,
    (natDigits n).foldl parseStep a = a * 10 ^ (natDigits n).length + n := by
  intro n
  induction n using Nat.strong_induction_on with
  | _ n ih =>
    intro a
    rw [natDigits_eq n]
    by_cases h : n < 10
    · simp only [if_pos h, List.foldl_cons, List.foldl_nil, List.length_singleton,
        pow_one, parseStep]
      omega
    · have hdiv : n / 10 < n := Nat.div_lt_self (by omega) (by omega)
      simp only [if_neg h, List.foldl_append, List.foldl_cons, List.foldl_nil,
        List.length_append, List.length_singleton]
      rw [ih (n / 10) hdiv a]
      simp only [parseStep]
      rw [pow_succ, ← mul_assoc]
      have := Nat.div_add_mod n 10
      omega

theorem digitChar_toNat (d : Nat) (h : d < 10) : (digitChar d).toNat = 48 + d := by
  interval_cases d <;> decide

theorem parseDC_pyStr (n : Nat) : parseDC (pyStr n).data = n := by
  show ((natDigits n).map digitChar).foldl (fun a c => 10 * a + (c.toNat - 48)) 0 = n
  rw [List.foldl_map]
  rw [List.foldl_ext _ parseStep 0
    (fun a d hd => by
      rw [digitChar_toNat d (natDigits_lt_ten n d hd)]
      simp only [parseStep]
      omega)]
  rw [parse_foldl_natDigits n 0]
  omega

theorem parseDC_rjust (w n : Nat) : parseDC (rjustZero w (pyStr n)).data = n := by
  show parseDC (List.replicate (w - (pyStr n).data.length) '0' ++ (pyStr n).data) = n
  generalize w - (pyStr n).data.length = k
  induction k with
  | zero => simpa using parseDC_pyStr n
  | succ k ihk =>
    rw [List.replicate_succ, List.cons_append]
    show (List.replicate k '0' ++ (pyStr n).data).foldl
      (fun a c => 10 * a + (c.toNat - 48)) (10 * 0 + ('0'.toNat - 48)) = n
    have h0 : 10 * 0 + ('0'.toNat - 48) = 0 := by decide
    rw [h0]
    exact ihk

theorem pyStr_length (n : Nat) : (pyStr n).length = (natDigits n).length := by
  simp [pyStr, String.length]

theorem rjust_data_length (w : Nat) (s : String) (h : s.data.length ≤ w) :
    (rjustZero w s).data.length = w := by
  show (List.replicate (w - s.data.length) '0' ++ s.data).length = w
  simp only [List.length_append, List.length_replicate]
  omega

theorem digitChar_ne_slash (d : Nat) (h : d < 10) : digitChar d ≠ '/' := by
  intro heq
  have := congrArg Char.toNat heq
  rw [digitChar_toNat d h] at this
  have h47 : ('/').toNat = 47 := by decide
  omega

theorem rjust_pyStr_head_ne_slash (w n : Nat) :
    (rjustZero w (pyStr n)).data.head? ≠ some '/' := by
  obtain ⟨d, ds, hl⟩ : ∃ d ds, natDigits n = d :: ds := by
    cases hnd : natDigits n with
    | nil => exact absurd hnd (natDigits_ne_nil n)
    | cons d ds => exact ⟨d, ds, rfl⟩
  have hd : d < 10 := natDigits_lt_ten n d (by rw [hl]; exact List.mem_cons_self d ds)
  show (List.replicate (w - (pyStr n).data.length) '0' ++ (pyStr n).data).head? ≠ some '/'
  have hdata : (pyStr n).data = digitChar d :: ds.map digitChar := by
    show ((natDigits n).map digitChar) = _
    rw [hl, List.map_cons]
  cases hk : w - (pyStr n).data.length with
  | zero =>
    rw [List.replicate_zero, List.nil_append, hdata]
    simp only [List.head?_cons, ne_eq, Option.some.injEq]
    exact digitChar_ne_slash d hd
  | succ k =>
    rw [List.replicate_succ, List.cons_append]
    simp only [List.head?_cons, ne_eq, Option.some.injEq]
    decide

theorem osPathJoin_right_inj (a b₁ b₂ : String)
    (h₁ : b₁.data.head? ≠ some '/') (h₂ : b₂.data.head? ≠ some '/')
    (h : osPathJoin a b₁ = osPathJoin a b₂) : b₁ = b₂ := by
  unfold osPathJoin at h
  rw [if_neg h₁, if_neg h₂] at h
  by_cases ha : a.data = [] ∨ a.data.getLast? = some '/'
  · rw [if_pos ha, if_pos ha] at h
    exact String.ext (by simpa [String.data_append] using congrArg String.data h)
  · rw [if_neg ha, if_neg ha] at h
    exact String.ext (by simpa [String.data_append] using congrArg String.data h)

theorem outputDirFor_inj (w : Nat) (base : String) (i j : Nat)
    (h : outputDirFor w base i = outputDirFor w base j) : i = j := by
  have hsuffix := osPathJoin_right_inj base _ _
    (rjust_pyStr_head_ne_slash w i) (rjust_pyStr_head_ne_slash w j) h
  calc i = parseDC (rjustZero w (pyStr i)).data := (parseDC_rjust w i).symm
    _ = parseDC (rjustZero w (pyStr j)).data := by rw [hsuffix]
    _ = j := parseDC_rjust w j

/-! ### Properties of the dict model -/

theorem dictGet_update_self (d : PyDict) (k : String) (v : PyVal) :
    dictGet (dictUpdate d k v) k = some v := by
  induction d with
  | nil => simp [dictUpdate, dictGet]
  | cons p rest ih =>
    by_cases h : p.1 = k
    · simp [dictUpdate, dictGet, h]
    · simp [dictUpdate, dictGet, h, ih]

theorem dictGet_update_ne (d : PyDict) (k k' : String) (v : PyVal) (h : k' ≠ k) :
    dictGet (dictUpdate d k v) k' = dictGet d k' := by
  induction d with
  | nil => simp [dictUpdate, dictGet, Ne.symm h]
  | cons p rest ih =>
    by_cases hp : p.1 = k
    · subst hp
      simp [dictUpdate, dictGet, Ne.symm h]
    · by_cases hp' : p.1 = k'
      · simp [dictUpdate, dictGet, hp, hp', h]
      · simp [dictUpdate, dictGet, hp, hp', ih]

theorem dictUpdate_idem (d : PyDict) (k : String) (v w : PyVal) :
    dictUpdate (dictUpdate d k v) k w = dictUpdate d k w := by
  induction d with
  | nil => simp [dictUpdate]
  | cons p rest ih =>
    by_cases h : p.1 = k
    · simp [dictUpdate, h]
    · simp [dictUpdate, h, ih]

/-! ### Properties of the batch operations -/

theorem injectedOptions_eq (self : Batch_Simulation) (nd : Nat) (base : String)
    (opts : PyDict) (i : Nat) :
    self.injectedOptions nd base opts i =
      dictUpdate opts self.locationKey (PyVal.str (outputDirFor nd base i)) := by
  unfold Batch_Simulation.injectedOptions Batch_Simulation.locationKey outputDirFor
  by_cases h : self.sim_type == PyType.Nonlinear_Simulation
  · simp [h]
  · simp [h]

theorem run_single_sim_update (self : Batch_Simulation) (i nd : Nat) (base : String)
    (c : Bool) (opts : PyDict) (v : PyVal) :
    self.run_single_sim i nd base c (dictUpdate opts self.locationKey v) =
      self.run_single_sim i nd base c opts := by
  unfold Batch_Simulation.run_single_sim
  rw [injectedOptions_eq, injectedOptions_eq, dictUpdate_idem]

theorem run_single_sim_options_after (self : Batch_Simulation) (i nd : Nat)
    (base : String) (c : Bool) (opts : PyDict) (out : SingleSimOutcome)
    (h : self.run_single_sim i nd base c opts = .ok out) :
    out.options_after = self.injectedOptions nd base opts i := by
  unfold Batch_Simulation.run_single_sim at h
  split at h
  · simp at h
  · split at h
    · split at h
      · simp only [Except.ok.injEq] at h
        rw [← h]
      · simp only [Except.ok.injEq] at h
        rw [← h]
      · simp at h
    · split at h
      · simp only [Except.ok.injEq] at h
        rw [← h]
      · simp at h

theorem seqRun_shift (self : Batch_Simulation) (nd : Nat) (base : String) (c : Bool)
    (idxs : List Nat) (opts : PyDict) (v : PyVal) :
    (self.seqRun nd base c idxs (dictUpdate opts self.locationKey v)).map
        (fun x => (x.1, x.2.2)) =
      (self.seqRun nd base c idxs opts).map (fun x => (x.1, x.2.2)) := by
  cases idxs with
  | nil => rfl
  | cons i rest =>
    simp only [Batch_Simulation.seqRun]
    rw [run_single_sim_update]

theorem seqRun_eq_parRun (self : Batch_Simulation) (nd : Nat) (base : String) (c : Bool) :
    ∀ (idxs : List Nat) (opts : PyDict),
      (self.seqRun nd base c idxs opts).map (fun x => (x.1, x.2.2)) =
        self.parRun nd base c opts idxs := by
  intro idxs
  induction idxs with
  | nil => intro opts; rfl
  | cons i rest ih =>
    intro opts
    cases hr : self.run_single_sim i nd base c opts with
    | error e =>
      simp only [Batch_Simulation.seqRun, Batch_Simulation.parRun, hr, Except.map]
    | ok out =>
      have hopts : out.options_after =
          dictUpdate opts self.locationKey (PyVal.str (outputDirFor nd base i)) := by
        rw [run_single_sim_options_after self i nd base c opts out hr, injectedOptions_eq]
      have hseq := seqRun_shift self nd base c rest opts (PyVal.str (outputDirFor nd base i))
      rw [← hopts] at hseq
      rw [ih opts] at hseq
      cases hrest : self.seqRun nd base c rest out.options_after with
      | error e =>
        rw [hrest] at hseq
        simp only [Except.map] at hseq
        simp only [Batch_Simulation.seqRun, Batch_Simulation.parRun, hr, hrest,
          ← hseq, Except.map]
      | ok trip =>
        obtain ⟨rs, opts', prints⟩ := trip
        rw [hrest] at hseq
        simp only [Except.map] at hseq
        simp only [Batch_Simulation.seqRun, Batch_Simulation.parRun, hr, hrest,
          ← hseq, Except.map]

theorem parRun_spec (self : Batch_Simulation) (nd : Nat) (base : String) (c : Bool)
    (opts : PyDict) :
    ∀ (idxs : List Nat) (rs : List (Option Simulation_Results)) (pr : List String),
      self.parRun nd base c opts idxs = .ok (rs, pr) →
      rs.length = idxs.length ∧
      ∀ (n i : Nat), idxs.get? n = some i →
        ∃ o, self.run_single_sim i nd base c opts = .ok o ∧
          rs.get? n = some o.sim_result := by
  intro idxs
  induction idxs with
  | nil =>
    intro rs pr h
    simp only [Batch_Simulation.parRun, Except.ok.injEq, Prod.mk.injEq] at h
    obtain ⟨h1, h2⟩ := h
    subst h1
    refine ⟨rfl, ?_⟩
    intro n i hn
    simp at hn
  | cons i rest ih =>
    intro rs pr h
    simp only [Batch_Simulation.parRun] at h
    cases hr : self.run_single_sim i nd base c opts with
    | error e => rw [hr] at h; simp at h
    | ok out =>
      rw [hr] at h
      simp only [] at h
      cases hrest : self.parRun nd base c opts rest with
      | error e => rw [hrest] at h; simp at h
      | ok q =>
        rw [hrest] at h
        simp only [] at h
        obtain ⟨rs', pr'⟩ := q
        simp only [Except.ok.injEq, Prod.mk.injEq] at h
        obtain ⟨h1, h2⟩ := h
        subst h1
        obtain ⟨hlen, hel⟩ := ih rs' pr' hrest
        refine ⟨by simp [hlen], ?_⟩
        intro n j hn
        cases n with
        | zero =>
          simp only [List.get?_cons_zero, Option.some.injEq] at hn
          subst hn
          exact ⟨out, hr, rfl⟩
        | succ n =>
          simp only [List.get?_cons_succ] at hn ⊢
          exact hel n j hn

theorem seqRun_append_last (self : Batch_Simulation) (nd : Nat) (base : String)
    (c : Bool) :
    ∀ (idxs : List Nat) (i₀ : Nat) (opts : PyDict)
      (rs : List (Option Simulation_Results)) (d : PyDict) (pr : List String),
      self.seqRun nd base c (idxs ++ [i₀]) opts = .ok (rs, d, pr) →
      d = dictUpdate opts self.locationKey (PyVal.str (outputDirFor nd base i₀)) := by
  intro idxs
  induction idxs with
  | nil =>
    intro i₀ opts rs d pr h
    simp only [List.nil_append, Batch_Simulation.seqRun] at h
    cases hr : self.run_single_sim i₀ nd base c opts with
    | error e => rw [hr] at h; simp at h
    | ok out =>
      rw [hr] at h
      simp only [] at h
      simp only [Batch_Simulation.seqRun, Except.ok.injEq, Prod.mk.injEq] at h
      obtain ⟨h1, h2, h3⟩ := h
      rw [← h2, run_single_sim_options_after self i₀ nd base c opts out hr,
        injectedOptions_eq]
  | cons j idxs ih =>
    intro i₀ opts rs d pr h
    simp only [List.cons_append, Batch_Simulation.seqRun] at h
    cases hr : self.run_single_sim j nd base c opts with
    | error e => rw [hr] at h; simp at h
    | ok out =>
      rw [hr] at h
      simp only [] at h
      split at h
      · simp at h
      · rename_i rs' d' pr' heq
        simp only [Except.ok.injEq, Prod.mk.injEq] at h
        obtain ⟨h1, h2, h3⟩ := h
        rw [← h2, ih i₀ out.options_after rs' d' pr' heq,
          run_single_sim_options_after self j nd base c opts out hr,
          injectedOptions_eq, dictUpdate_idem]

theorem run_seq_eq (self : Batch_Simulation) (nc : Option Nat) (base? : Option String)
    (c v : Bool) (opts? : Option PyDict) (t : String) :
    self.run false nc base? c v opts? t =
      match self.seqRun (pyStr self.n_simulations).length (resolveBaseDir base? t) c
          (List.range self.n_simulations) (resolveOptions opts?) with
      | .error e => .error e
      | .ok (rs, opts', prints) => .ok ⟨rs, opts', prints⟩ := rfl

theorem run_par_eq (self : Batch_Simulation) (nc : Option Nat) (base? : Option String)
    (c v : Bool) (opts? : Option PyDict) (t : String) :
    self.run true nc base? c v opts? t =
      match self.parRun (pyStr self.n_simulations).length (resolveBaseDir base? t) c
          (resolveOptions opts?) (List.range self.n_simulations) with
      | .error e => .error e
      | .ok (rs, prints) =>
        if showFigRequested (resolveOptions opts?) then
          match plotSweep rs with
          | .error e => .error e
          | .ok _ =>
            .ok ⟨rs, resolveOptions opts?,
              (if v then [if self.use_ctx then
                  "Parallel computing in progress using forkserver..."
                else "Parallel computing in progress..."] else []) ++ prints ++
                (if v then ["done."] else [])⟩
        else
          .ok ⟨rs, resolveOptions opts?,
            (if v then [if self.use_ctx then
                "Parallel computing in progress using forkserver..."
              else "Parallel computing in progress..."] else []) ++ prints ++
              (if v then ["done."] else [])⟩ := rfl

/-! ### Claim C1 -/

/-- Claim C1, counterexample: the claim says the numeric suffix of the
allocated path is zero-padded to exactly `len(str(N - 1))` digits, but the
source (line 140) computes `n_digits = len(str(N))`.  For a batch of 10 tasks
the two differ: the path actually allocated (observable in the options dict
mutated by the sequential run, which holds the last task's path) is
`/tmp/batch/09`, whereas padding ordinal 9 to `len(str(10 - 1)) = 1` digits
would give `/tmp/batch/9`. -/
theorem claim1_counterexample :
    Batch_Simulation.init (.list (List.replicate 10 linSim)) false = .ok batch10 ∧
    batch10.run false (some 1) (some "/tmp/batch") false true (some []) "t" =
      .ok ⟨List.replicate 10 (some ⟨7⟩),
        [("output_dir", PyVal.str "/tmp/batch/09")], []⟩ ∧
    osPathJoin "/tmp/batch" (rjustZero (pyStr (10 - 1)).length (pyStr 9)) =
      "/tmp/batch/9" ∧
    ("/tmp/batch/09" : String) ≠ "/tmp/batch/9" :=
  ⟨rfl, rfl, rfl, by decide⟩

/-- Claim C1 (amended): for every batch size `N`, ordinal `i < N` and base
directory, the allocated path is the base joined with the decimal rendering
of `i` left-zero-padded to exactly `len(str(N))` digits (not `len(str(N-1))`);
the padded suffix still denotes `i`. -/
theorem claim1_path_width (N i : Nat) (base : String) (h : i < N) :
    outputDirFor (pyStr N).length base i =
      osPathJoin base (rjustZero (pyStr N).length (pyStr i)) ∧
    (rjustZero (pyStr N).length (pyStr i)).data.length = (pyStr N).length ∧
    parseDC (rjustZero (pyStr N).length (pyStr i)).data = i := by
  refine ⟨rfl, ?_, parseDC_rjust _ i⟩
  apply rjust_data_length
  calc (pyStr i).data.length = (natDigits i).length := by simp [pyStr]
    _ ≤ (natDigits N).length := natDigits_len_mono N i (Nat.le_of_lt h)
    _ = (pyStr N).length := by simp [pyStr, String.length]

/-- Witness for the amended claim C1 at batch size 125, ordinal 124: the
suffix is 3 characters wide and still denotes 124. -/
theorem claim1_path_width_witness :
    124 < 125 ∧
    (outputDirFor (pyStr 125).length "/x" 124 =
        osPathJoin "/x" (rjustZero (pyStr 125).length (pyStr 124)) ∧
      (rjustZero (pyStr 125).length (pyStr 124)).data.length = (pyStr 125).length ∧
      parseDC (rjustZero (pyStr 125).length (pyStr 124)).data = 124) :=
  ⟨by decide, claim1_path_width 125 124 "/x" (by decide)⟩

/-! ### Claim C2 -/

/-- Claim C2 (confirmed): if the task's run raises and `catch_errors` is true,
a `ValueError` is converted into a printed warning plus the `None` sentinel,
while any other exception propagates; with `catch_errors` false every
exception propagates. -/
theorem claim2_catch_errors (self : Batch_Simulation) (i nd : Nat) (base : String)
    (opts : PyDict) (sim_obj : SimObject) (e : PyError)
    (hget : self.list_of_simulations.get? i = some sim_obj)
    (hrun : sim_obj.run (self.injectedOptions nd base opts i) = .error e) :
    ((∃ m, e = .valueError m) →
      self.run_single_sim i nd base true opts =
        .ok ⟨none, self.injectedOptions nd base opts i,
          ["Warning: ValueError encountered."]⟩) ∧
    ((∀ m, e ≠ .valueError m) →
      self.run_single_sim i nd base true opts = .error e) ∧
    self.run_single_sim i nd base false opts = .error e := by
  have hget' : self.list_of_simulations[i]? = some sim_obj := by
    rw [← List.get?_eq_getElem?]
    exact hget
  refine ⟨?_, ?_, ?_⟩
  · rintro ⟨m, rfl⟩
    simp [Batch_Simulation.run_single_sim, hget', hrun]
  · intro hne
    cases e with
    | valueError m => exact absurd rfl (hne m)
    | typeError m => simp [Batch_Simulation.run_single_sim, hget', hrun]
    | attributeError m => simp [Batch_Simulation.run_single_sim, hget', hrun]
    | indexError m => simp [Batch_Simulation.run_single_sim, hget', hrun]
    | otherError t => simp [Batch_Simulation.run_single_sim, hget', hrun]
  · simp [Batch_Simulation.run_single_sim, hget', hrun]

/-- Witness for claim C2: a one-task batch whose simulation raises
`ValueError`, run with `catch_errors` true, yields the sentinel plus the
warning line. -/
theorem claim2_catch_errors_witness :
    ([vErrLinSim].get? 0 = some vErrLinSim ∧
      vErrLinSim.run (vErrBatch.injectedOptions 1 "/b" [] 0) =
        .error (.valueError "bad input")) ∧
    vErrBatch.run_single_sim 0 1 "/b" true [] =
      .ok ⟨none, [("output_dir", PyVal.str "/b/0")],
        ["Warning: ValueError encountered."]⟩ :=
  ⟨⟨rfl, rfl⟩,
    (claim2_catch_errors vErrBatch 0 1 "/b" [] vErrLinSim (.valueError "bad input")
      rfl rfl).1 ⟨"bad input", rfl⟩⟩

/-! ### Claim C3 -/

/-- Claim C3, counterexample: the claim says construction succeeds whenever
all elements share the first element's kind, but the source (line 75) checks
`isinstance(i, type(sim_0))`.  Here both elements are of the Linear kind —
the first element's type is a proper subclass of `Linear_Simulation`, the
second is `Linear_Simulation` itself — yet construction raises `TypeError`
because the second element is not an instance of the first element's type. -/
theorem claim3_counterexample :
    subLinSim.ty.simKind = some SimKind.linear ∧
    linSim.ty.simKind = some SimKind.linear ∧
    Batch_Simulation.init (.list [subLinSim, linSim]) false =
      .error (.typeError
        "All the elements of `list_of_simulations` should be of the same type.") :=
  ⟨rfl, rfl, rfl⟩

/-- Claim C3 (amended): batch construction raises `TypeError` on a non-list,
`ValueError` on an empty list, `TypeError` when the first element is not an
instance of one of the three recognized simulation classes, `TypeError` when
some element is not an instance (in the `isinstance` sense, subclasses
included) of the first element's type, and otherwise succeeds with
`n_simulations` equal to the collection length and `sim_type` equal to the
first element's type. -/
theorem claim3_init_contract (u : Bool) :
    (∀ t, Batch_Simulation.init (.notAList t) u =
      .error (.typeError "`list_of_simulations` should be a list.")) ∧
    (Batch_Simulation.init (.list []) u =
      .error (.valueError "`list_of_simulations` should have at least one element.")) ∧
    (∀ x rest, (x.ty.isSubclassOf .Linear_Simulation ||
        x.ty.isSubclassOf .Equiv_Linear_Simulation ||
        x.ty.isSubclassOf .Nonlinear_Simulation) = false →
      Batch_Simulation.init (.list (x :: rest)) u =
        .error (.typeError ("Elements of `list_of_simulations` should be of " ++
          "type `Linear_Simulation`, `Equiv_Linear_Simulation`, " ++
          "or `Nonlinear_Simulation`."))) ∧
    (∀ x rest, (x.ty.isSubclassOf .Linear_Simulation ||
        x.ty.isSubclassOf .Equiv_Linear_Simulation ||
        x.ty.isSubclassOf .Nonlinear_Simulation) = true →
      ((x :: rest).all fun s => s.ty.isSubclassOf x.ty) = false →
      Batch_Simulation.init (.list (x :: rest)) u =
        .error (.typeError
          "All the elements of `list_of_simulations` should be of the same type.")) ∧
    (∀ x rest, (x.ty.isSubclassOf .Linear_Simulation ||
        x.ty.isSubclassOf .Equiv_Linear_Simulation ||
        x.ty.isSubclassOf .Nonlinear_Simulation) = true →
      ((x :: rest).all fun s => s.ty.isSubclassOf x.ty) = true →
      Batch_Simulation.init (.list (x :: rest)) u =
        .ok ⟨x :: rest, (x :: rest).length, x.ty, u⟩) := by
  refine ⟨fun t => rfl, rfl, ?_, ?_, ?_⟩
  · intro x rest hx
    simp [Batch_Simulation.init, hx]
  · intro x rest hx hall
    simp [Batch_Simulation.init, hx, hall]
  · intro x rest hx hall
    simp [Batch_Simulation.init, hx, hall]

/-- Witness for the amended claim C3: a homogeneous two-element list of
`Linear_Simulation` instances constructs successfully with the recorded size
and type. -/
theorem claim3_init_contract_witness :
    ((linSim.ty.isSubclassOf .Linear_Simulation ||
        linSim.ty.isSubclassOf .Equiv_Linear_Simulation ||
        linSim.ty.isSubclassOf .Nonlinear_Simulation) = true ∧
      ([linSim, linSim].all fun s => s.ty.isSubclassOf linSim.ty) = true) ∧
    Batch_Simulation.init (.list [linSim, linSim]) false =
      .ok ⟨[linSim, linSim], 2, PyType.Linear_Simulation, false⟩ :=
  ⟨⟨rfl, rfl⟩, (claim3_init_contract false).2.2.2.2 linSim [linSim] rfl rfl⟩

/-! ### Claim C4 -/

/-- Claim C4, counterexample: the claim says the key `sim_dir` is used
whenever the batch's task kind is Nonlinear, but the source (line 219)
compares `self.sim_type == Nonlinear_Simulation` by exact class identity.  A
constructible batch whose `sim_type` is a proper subclass of
`Nonlinear_Simulation` — hence of Nonlinear kind — gets the key `output_dir`
instead, and no `sim_dir` key at all. -/
theorem claim4_counterexample :
    Batch_Simulation.init (.list [nlSubSim]) false = .ok nlSubBatch ∧
    nlSubBatch.sim_type.simKind = some SimKind.nonlinear ∧
    nlSubBatch.run_single_sim 0 1 "/tmp/b" false [] =
      .ok ⟨some ⟨10⟩, [("output_dir", PyVal.str "/tmp/b/0")], []⟩ ∧
    dictGet [("output_dir", PyVal.str "/tmp/b/0")] "sim_dir" = none :=
  ⟨rfl, rfl, rfl, rfl⟩

/-- Claim C4 (amended): the executor injects exactly one output-location key
into the bundle handed to the task's run: `sim_dir` when `sim_type` is
exactly the class `Nonlinear_Simulation`, and `output_dir` otherwise
(including for every other type, such as proper subclasses of
`Nonlinear_Simulation`); the key maps to the allocated per-task path and
every other key is read through to the caller-supplied bundle. -/
theorem claim4_injection (self : Batch_Simulation) (nd : Nat) (base : String)
    (opts : PyDict) (i : Nat) :
    (self.sim_type = PyType.Nonlinear_Simulation → self.locationKey = "sim_dir") ∧
    (self.sim_type ≠ PyType.Nonlinear_Simulation → self.locationKey = "output_dir") ∧
    dictGet (self.injectedOptions nd base opts i) self.locationKey =
      some (PyVal.str (outputDirFor nd base i)) ∧
    ∀ k, k ≠ self.locationKey →
      dictGet (self.injectedOptions nd base opts i) k = dictGet opts k := by
  refine ⟨?_, ?_, ?_, ?_⟩
  · intro h
    simp [Batch_Simulation.locationKey, beq_iff_eq, h]
  · intro h
    simp [Batch_Simulation.locationKey, beq_iff_eq, h]
  · rw [injectedOptions_eq]
    exact dictGet_update_self _ _ _
  · intro k hk
    rw [injectedOptions_eq]
    exact dictGet_update_ne _ _ _ _ hk

/-- Witness for the amended claim C4: a Linear-kind batch receives the
`output_dir` key bound to the allocated path. -/
theorem claim4_injection_witness :
    batch3.sim_type ≠ PyType.Nonlinear_Simulation ∧
    batch3.locationKey = "output_dir" ∧
    dictGet (batch3.injectedOptions 1 "/b" [] 0) "output_dir" =
      some (PyVal.str "/b/0") := by
  have h := claim4_injection batch3 1 "/b" [] 0
  exact ⟨by decide, h.2.1 (by decide), h.2.2.1⟩

/-! ### Claim C5 -/

/-- Claim C5, counterexample: the claim says the shared bundle is copied
before the output-location key is injected, leaving the caller's mapping
unchanged.  The source (line 137 keeps the caller's dict, lines 220/222
`options.update(...)` mutate it in place), so after a sequential run the
caller's mapping holds the last task's path — here the caller's existing
`output_dir` entry `keep` has been overwritten with `/tmp/batch/2`. -/
theorem claim5_counterexample :
    Batch_Simulation.init (.list (List.replicate 3 linSim)) false = .ok batch3 ∧
    batch3.run false (some 1) (some "/tmp/batch") false true
        (some [("output_dir", PyVal.str "keep")]) "t" =
      .ok ⟨List.replicate 3 (some ⟨7⟩),
        [("output_dir", PyVal.str "/tmp/batch/2")], []⟩ ∧
    ([("output_dir", PyVal.str "/tmp/batch/2")] : PyDict) ≠
      [("output_dir", PyVal.str "keep")] :=
  ⟨rfl, rfl, by decide⟩

/-- Claim C5 (amended): the executor injects the output-location key into the
caller-supplied bundle in place; after a successful sequential run the
caller's mapping holds the location key bound to the last task's allocated
path (overwriting any existing entry under that key), while after a parallel
run the caller's mapping is unchanged because each worker mutates a pickled
copy. -/
theorem claim5_mutation (self : Batch_Simulation) (nc : Option Nat) (base : String)
    (c v : Bool) (opts : PyDict) (t : String) (out : RunOutcome) :
    (0 < self.n_simulations →
      self.run false nc (some base) c v (some opts) t = .ok out →
      out.options_after =
        dictUpdate opts self.locationKey
          (PyVal.str (outputDirFor (pyStr self.n_simulations).length base
            (self.n_simulations - 1)))) ∧
    (self.run true nc (some base) c v (some opts) t = .ok out →
      out.options_after = opts) := by
  constructor
  · intro hN hrun
    rw [run_seq_eq] at hrun
    have hrange : List.range self.n_simulations =
        List.range (self.n_simulations - 1) ++ [self.n_simulations - 1] := by
      conv_lhs => rw [show self.n_simulations = (self.n_simulations - 1) + 1 by omega]
      rw [List.range_succ]
    rw [hrange] at hrun
    split at hrun
    · simp at hrun
    · rename_i rs opts' prints heq
      simp only [Except.ok.injEq] at hrun
      rw [← hrun]
      exact seqRun_append_last self (pyStr self.n_simulations).length
        (resolveBaseDir (some base) t) c (List.range (self.n_simulations - 1))
        (self.n_simulations - 1) (resolveOptions (some opts)) rs opts' prints heq
  · intro hrun
    rw [run_par_eq] at hrun
    split at hrun
    · simp at hrun
    · rename_i rs prints heq
      split at hrun
      · split at hrun
        · simp at hrun
        · simp only [Except.ok.injEq] at hrun
          rw [← hrun]
          rfl
      · simp only [Except.ok.injEq] at hrun
        rw [← hrun]
        rfl

/-- Witness for the amended claim C5: a sequential run of three linear
simulations starting from an empty bundle leaves the caller's dict holding
`output_dir ↦ /b/2`, the last task's path. -/
theorem claim5_mutation_witness :
    0 < batch3.n_simulations ∧
    (RunOutcome.options_after
        ⟨List.replicate 3 (some ⟨7⟩), [("output_dir", PyVal.str "/b/2")], []⟩ =
      dictUpdate [] batch3.locationKey
        (PyVal.str (outputDirFor (pyStr batch3.n_simulations).length "/b"
          (batch3.n_simulations - 1)))) :=
  ⟨by decide, (claim5_mutation batch3 (some 1) "/b" false true [] "t"
    ⟨List.replicate 3 (some ⟨7⟩), [("output_dir", PyVal.str "/b/2")], []⟩).1
    (by decide) rfl⟩

/-! ### Claim C6 -/

/-- Claim C6, code bug: the claim (and the specification) say the deferred
rendering loop skips every `None` sentinel, so `plot` is never invoked on a
sentinel.  The source (lines 184-185) iterates `for sim_result in
sim_results: sim_result.plot(...)` with no skip, so a parallel run with
`catch_errors` true, `show_fig` truthy and one `ValueError`-raising task
gathers `[result, None]` and then crashes with `AttributeError` when `.plot`
is invoked on the sentinel. -/
theorem claim6_plot_on_sentinel :
    Batch_Simulation.init (.list [linSim, vErrLinSim]) false = .ok mixBatch ∧
    mixBatch.parRun (pyStr 2).length "/tmp/b" true [("show_fig", PyVal.bool true)]
        (List.range 2) =
      .ok ([some ⟨7⟩, none], ["Warning: ValueError encountered."]) ∧
    mixBatch.run true (some 2) (some "/tmp/b") true true
        (some [("show_fig", PyVal.bool true)]) "t" =
      .error (.attributeError "NoneType object has no attribute plot") :=
  ⟨rfl, rfl, rfl⟩

/-! ### Claim C7 -/

/-- Claim C7 (confirmed): whenever the sequential and the parallel run of the
same batch under the same configuration both return result sequences, the two
sequences are equal, have length `N`, and the entry at each ordinal `i < N`
is the result the single-task executor produces on ordinal `i`. -/
theorem claim7_seq_par_equiv (self : Batch_Simulation) (nc₁ nc₂ : Option Nat)
    (base? : Option String) (c v₁ v₂ : Bool) (opts? : Option PyDict) (t : String)
    (out₁ out₂ : RunOutcome)
    (h₁ : self.run false nc₁ base? c v₁ opts? t = .ok out₁)
    (h₂ : self.run true nc₂ base? c v₂ opts? t = .ok out₂) :
    out₁.sim_results = out₂.sim_results ∧
    out₁.sim_results.length = self.n_simulations ∧
    ∀ i, i < self.n_simulations →
      ∃ o, self.run_single_sim i (pyStr self.n_simulations).length
          (resolveBaseDir base? t) c (resolveOptions opts?) = .ok o ∧
        out₁.sim_results.get? i = some o.sim_result := by
  rw [run_seq_eq] at h₁
  rw [run_par_eq] at h₂
  split at h₁
  · simp at h₁
  · rename_i rs₁ opts' prints₁ heq₁
    simp only [Except.ok.injEq] at h₁
    split at h₂
    · simp at h₂
    · rename_i rs₂ prints₂ heq₂
      have hrel := seqRun_eq_parRun self (pyStr self.n_simulations).length
        (resolveBaseDir base? t) c (List.range self.n_simulations) (resolveOptions opts?)
      rw [heq₁, heq₂] at hrel
      simp only [Except.map, Except.ok.injEq, Prod.mk.injEq] at hrel
      obtain ⟨hrs, hpr⟩ := hrel
      obtain ⟨hlen, hel⟩ := parRun_spec self (pyStr self.n_simulations).length
        (resolveBaseDir base? t) c (resolveOptions opts?)
        (List.range self.n_simulations) rs₂ prints₂ heq₂
      have hout₂ : out₂.sim_results = rs₂ := by
        split at h₂
        · split at h₂
          · simp at h₂
          · simp only [Except.ok.injEq] at h₂
            rw [← h₂]
        · simp only [Except.ok.injEq] at h₂
          rw [← h₂]
      have hout₁ : out₁.sim_results = rs₁ := by rw [← h₁]
      refine ⟨by rw [hout₁, hout₂, hrs], ?_, ?_⟩
      · rw [hout₁, hrs, hlen, List.length_range]
      · intro i hi
        have hget : (List.range self.n_simulations).get? i = some i := by
          rw [List.get?_eq_getElem?]
          exact List.getElem?_range hi
        obtain ⟨o, ho, hro⟩ := hel i i hget
        refine ⟨o, ho, ?_⟩
        rw [hout₁, hrs]
        exact hro

/-- Witness for claim C7: the three-task linear batch run both ways from the
same empty bundle; both runs return, and the sequential result list has
length `n_simulations`. -/
theorem claim7_seq_par_equiv_witness :
    (batch3.run false (some 1) (some "/b") false true (some []) "t" =
        .ok ⟨List.replicate 3 (some ⟨7⟩), [("output_dir", PyVal.str "/b/2")], []⟩ ∧
      batch3.run true (some 2) (some "/b") false true (some []) "t" =
        .ok ⟨List.replicate 3 (some ⟨7⟩), [],
          ["Parallel computing in progress...", "done."]⟩) ∧
    (List.replicate 3 (some (Simulation_Results.mk 7))).length =
      batch3.n_simulations :=
  ⟨⟨rfl, rfl⟩,
    (claim7_seq_par_equiv batch3 (some 1) (some 2) (some "/b") false true true
      (some []) "t"
      ⟨List.replicate 3 (some ⟨7⟩), [("output_dir", PyVal.str "/b/2")], []⟩
      ⟨List.replicate 3 (some ⟨7⟩), [],
        ["Parallel computing in progress...", "done."]⟩ rfl rfl).2.1⟩

/-! ### Claim C8 -/

/-- Claim C8 (confirmed): within one batch of size `N`, two distinct ordinals
are always allocated distinct output paths under the same base directory (the
path being, by definition, a function of the batch size, the ordinal and the
base directory only). -/
theorem claim8_paths_distinct (N i j : Nat) (base : String)
    (hi : i < N) (hj : j < N) (hne : i ≠ j) :
    outputDirFor (pyStr N).length base i ≠ outputDirFor (pyStr N).length base j :=
  fun h => hne (outputDirFor_inj (pyStr N).length base i j h)

/-- Witness for claim C8: ordinals 0 and 1 of a batch of 3 get distinct
paths. -/
theorem claim8_paths_distinct_witness :
    0 < 3 ∧ 1 < 3 ∧ 0 ≠ 1 ∧
    outputDirFor (pyStr 3).length "/tmp/batch" 0 ≠
      outputDirFor (pyStr 3).length "/tmp/batch" 1 :=
  ⟨by decide, by decide, by decide,
    claim8_paths_distinct 3 0 1 "/tmp/batch" (by decide) (by decide) (by decide)⟩

/-! ### Claim C9 -/

/-- Claim C9 (confirmed): when no base output directory is supplied, `run`
behaves exactly as if the caller had passed the single directory derived once
from the wall-clock reading taken at the moment of invocation (modelled by
the `current_time` argument), so all `N` tasks of that invocation share this
one parent; the directory is `batch_sim_<timestamp>` nested under the working
directory. -/
theorem claim9_default_base (self : Batch_Simulation) (parallel : Bool)
    (nc : Option Nat) (c v : Bool) (opts : Option PyDict) (t : String) :
    self.run parallel nc none c v opts t =
      self.run parallel nc (some (defaultBaseDir t)) c v opts t ∧
    defaultBaseDir t = "./batch_sim_" ++ t := by
  constructor
  · rfl
  · have hb : ("batch_sim_" ++ t).data.head? ≠ some '/' := by
      rw [String.data_append]
      rw [show ("batch_sim_" : String).data = 'b' :: ("atch_sim_" : String).data from rfl]
      simp
    unfold defaultBaseDir osPathJoin
    rw [if_neg hb, if_pos (Or.inr (by decide))]
    apply String.ext
    show ("./" ++ ("batch_sim_" ++ t)).data = ("./batch_sim_" ++ t).data
    rw [String.data_append, String.data_append, String.data_append,
      ← List.append_assoc]
    rfl

/-! ### Claim C10 -/

/-- Claim C10 (confirmed): the homogeneity check is `isinstance`-based
against the first element's type, so construction succeeds whenever the
first element is an instance of one of the three recognized simulation
classes and every element is an instance of the first element's type or of a
subclass of it; exact type equality is not required. -/
theorem claim10_isinstance_subclass (x : SimObject) (rest : List SimObject) (u : Bool)
    (h1 : (x.ty.isSubclassOf .Linear_Simulation ||
        x.ty.isSubclassOf .Equiv_Linear_Simulation ||
        x.ty.isSubclassOf .Nonlinear_Simulation) = true)
    (h2 : ((x :: rest).all fun s => s.ty.isSubclassOf x.ty) = true) :
    Batch_Simulation.init (.list (x :: rest)) u =
      .ok ⟨x :: rest, (x :: rest).length, x.ty, u⟩ := by
  simp [Batch_Simulation.init, h1, h2]

/-- Witness for claim C10: a list whose first element is a plain
`Linear_Simulation` and whose second element's type is a proper subclass of
it constructs successfully, showing exact type equality is not required. -/
theorem claim10_isinstance_subclass_witness :
    ((linSim.ty.isSubclassOf .Linear_Simulation ||
        linSim.ty.isSubclassOf .Equiv_Linear_Simulation ||
        linSim.ty.isSubclassOf .Nonlinear_Simulation) = true ∧
      ([linSim, subLinSim].all fun s => s.ty.isSubclassOf linSim.ty) = true ∧
      subLinSim.ty ≠ linSim.ty) ∧
    Batch_Simulation.init (.list [linSim, subLinSim]) false =
      .ok ⟨[linSim, subLinSim], 2, PyType.Linear_Simulation, false⟩ :=
  ⟨⟨rfl, rfl, by decide⟩,
    claim10_isinstance_subclass linSim [subLinSim] false rfl rfl⟩

end BatchSim
